import Mathlib

/-!
Shallow embedding of the needle-mcp tool-invocation dispatcher
(src/needle_mcp/server.py): the rate limiter `rate_limit`, the validation
helpers `validate_collection_id` and `validate_url`, and the dispatcher
`call_tool`, together with the remote Needle client modelled at its
interface boundary. Machine-level details kept: argument payloads are
string-keyed mappings, remote operations may fail, and every exception in
flight is represented explicitly in an `Except` result.
-/

namespace NeedleMCP

/-- JSON-like structured values, the shape of the `result` object built by
`call_tool` before `json.dumps` serializes it for transport. Numbers are
modelled as rationals (search scores are the only numeric payloads). -/
inductive JVal where
  | str : String → JVal
  | num : ℚ → JVal
  | arr : List JVal → JVal
  | obj : List (String × JVal) → JVal

/-- A collection returned by the remote Needle API. `created_at` is modelled
after stringification, since the dispatcher only ever uses `str(c.created_at)`. -/
structure Collection where
  id : String
  name : String
  created_at : String

/-- A file record returned by the remote Needle API. -/
structure NFile where
  id : String
  name : String
  status : String

/-- One search match returned by the remote Needle API. -/
structure SearchMatch where
  content : String
  score : ℚ

/-- The `FileToAdd` payload the dispatcher hands to `client.collections.files.add`. -/
structure FileToAdd where
  name : String
  url : String
deriving DecidableEq

/-- A failure raised by a remote client operation: the needle library raises
`NeedleError` (carrying a message); anything else is some other exception. -/
inductive Fault where
  | needleError : String → Fault
  | otherError : String → Fault

/-- The remote Needle client at its interface boundary: each operation either
returns a value or raises a `Fault`. One record value stands for one fixed
remote behaviour during an invocation. -/
structure Client where
  collections_list : Except Fault (List Collection)
  collections_create : String → Except Fault Collection
  collections_get : String → Except Fault Collection
  collections_stats : String → Except Fault JVal
  files_list : String → Except Fault (List NFile)
  files_add : String → List FileToAdd → Except Fault (List NFile)
  collections_search : String → String → Except Fault (List SearchMatch)

/-- An exception in flight inside the `try` block of `call_tool`:
`ValueError` raised by the validation code, `IndexError` from indexing an
empty list, a `NeedleError` propagating out of the client, or any other
exception propagating out of the client. -/
inductive Exc where
  | valueError : String → Exc
  | indexError : String → Exc
  | needle : String → Exc
  | otherError : String → Exc

/-- Python `str(e)` on each modelled exception. -/
def Exc.message : Exc → String
  | .valueError m => m
  | .indexError m => m
  | .needle m => m
  | .otherError m => m

/-- Re-raising a client fault inside the dispatcher body. -/
def liftFault {α : Type} : Except Fault α → Except Exc α
  | .ok a => .ok a
  | .error (.needleError m) => .error (.needle m)
  | .error (.otherError m) => .error (.otherError m)

/-- One remote-API call, recorded with the exact argument values passed. -/
inductive RemoteCall where
  | collectionsList : RemoteCall
  | collectionsCreate : String → RemoteCall
  | collectionsGet : String → RemoteCall
  | collectionsStats : String → RemoteCall
  | filesList : String → RemoteCall
  | filesAdd : String → List FileToAdd → RemoteCall
  | collectionsSearch : String → String → RemoteCall
deriving DecidableEq

/-- The untyped `arguments` payload of a tool call: either not a dict at all,
or a string-keyed mapping. All declared tool parameters are strings. -/
inductive Arguments where
  | notDict : Arguments
  | dict : List (String × String) → Arguments

/-- Python `k in arguments`. -/
def hasKey (m : List (String × String)) (k : String) : Bool :=
  (m.lookup k).isSome

/-- Python `arguments[k]`, used only under a `hasKey` guard in `call_tool`. -/
def getArg (m : List (String × String)) (k : String) : String :=
  (m.lookup k).getD ""

/-- Result of the external URL parser: the `scheme` and `netloc` components
of a parse, the only two `validate_url` inspects. -/
structure SplitResult where
  scheme : String
  netloc : String
deriving DecidableEq

/-- `validate_collection_id` from server.py:
`bool(collection_id and isinstance(collection_id, str))`; on the string-typed
arguments of the model this is exactly non-emptiness. -/
def validate_collection_id (collection_id : String) : Bool :=
  collection_id ≠ ""

/-- `validate_url` from server.py: parse the url with the external
`urllib.parse.urlparse` (passed as the parameter `parse`) and require both a
scheme and a netloc to be non-empty, per `all([result.scheme, result.netloc])`;
the bare `except` returns `False` whenever the parser raises. -/
def validate_url (parse : String → Except String SplitResult) (url : String) : Bool :=
  match parse url with
  | .ok r => decide (r.scheme ≠ "" ∧ r.netloc ≠ "")
  | .error _ => false

/-- Characters admitted in a URL scheme after the initial letter. -/
def isSchemeChar (c : Char) : Bool :=
  c.isAlphanum || c == '+' || c == '-' || c == '.'

/-- Model of the scheme/netloc extraction of the Python standard library
function `urllib.parse.urlsplit` (an external dependency of `validate_url`):
a scheme is split off before the first colon when the text before the colon
is non-empty, starts with a letter and consists of scheme characters, and is
lowercased; a netloc follows a leading double slash and extends to the next
slash, question mark or hash; a netloc with unbalanced square brackets makes
the parser raise `ValueError` (the case the bare `except` in `validate_url`
exists for). -/
def urlsplitModel (url : String) : Except String SplitResult :=
  let cs := url.toList
  let sr :=
    match cs.findIdx? (fun c => c == ':') with
    | some i =>
        if 0 < i ∧ (cs.headD ' ').isAlpha ∧ (cs.take i).all isSchemeChar then
          (String.mk ((cs.take i).map Char.toLower), cs.drop (i + 1))
        else ("", cs)
    | none => ("", cs)
  match sr.2 with
  | '/' :: '/' :: rest =>
      let netloc := rest.takeWhile (fun c => !(c == '/' || c == '?' || c == '#'))
      if (netloc.contains '[' && !(netloc.contains ']')) ||
         (netloc.contains ']' && !(netloc.contains '[')) then
        .error "Invalid IPv6 URL"
      else
        .ok ⟨sr.1, String.mk netloc⟩
  | _ => .ok ⟨sr.1, ""⟩

/-- The try-block of `call_tool` (server.py lines 200-261), translated branch
by branch: validate the arguments of the named tool, call the corresponding
remote client operation, and build the `result` object, or end with the
exception in flight. The second component records the remote operations
actually invoked, in order, with the exact argument values passed (a call
that faults is still recorded: it did reach the remote collaborator). -/
def call_tool_body (client : Client) (parse : String → Except String SplitResult)
    (name : String) (arguments : Arguments) : Except Exc JVal × List RemoteCall :=
  if name = "list_collections" then
    (match liftFault client.collections_list with
     | .ok cs =>
        (.ok (.obj [("collections", .arr (cs.map (fun c =>
          .obj [("id", .str c.id), ("name", .str c.name),
                ("created_at", .str c.created_at)])))]), [.collectionsList])
     | .error e => (.error e, [.collectionsList]))
  else if name = "create_collection" then
    (match arguments with
     | .notDict => (.error (.valueError "Missing required parameter: \x27name\x27"), [])
     | .dict m =>
        if hasKey m "name" then
          (match liftFault (client.collections_create (getArg m "name")) with
           | .ok c => (.ok (.obj [("collection_id", .str c.id)]),
                       [.collectionsCreate (getArg m "name")])
           | .error e => (.error e, [.collectionsCreate (getArg m "name")]))
        else (.error (.valueError "Missing required parameter: \x27name\x27"), []))
  else if name = "get_collection_details" then
    (match arguments with
     | .notDict => (.error (.valueError "Missing required parameter: \x27collection_id\x27"), [])
     | .dict m =>
        if hasKey m "collection_id" then
          (match liftFault (client.collections_get (getArg m "collection_id")) with
           | .ok c =>
              (.ok (.obj [("collection",
                .obj [("id", .str c.id), ("name", .str c.name),
                      ("created_at", .str c.created_at)])]),
               [.collectionsGet (getArg m "collection_id")])
           | .error e => (.error e, [.collectionsGet (getArg m "collection_id")]))
        else (.error (.valueError "Missing required parameter: \x27collection_id\x27"), []))
  else if name = "get_collection_stats" then
    (match arguments with
     | .notDict => (.error (.valueError "Missing required parameter: \x27collection_id\x27"), [])
     | .dict m =>
        if hasKey m "collection_id" then
          (match liftFault (client.collections_stats (getArg m "collection_id")) with
           | .ok s => (.ok (.obj [("stats", s)]),
                       [.collectionsStats (getArg m "collection_id")])
           | .error e => (.error e, [.collectionsStats (getArg m "collection_id")]))
        else (.error (.valueError "Missing required parameter: \x27collection_id\x27"), []))
  else if name = "list_collection_files" then
    (match arguments with
     | .notDict => (.error (.valueError "Missing required parameter: \x27collection_id\x27"), [])
     | .dict m =>
        if hasKey m "collection_id" then
          (match liftFault (client.files_list (getArg m "collection_id")) with
           | .ok fs =>
              (.ok (.obj [("files", .arr (fs.map (fun f =>
                .obj [("id", .str f.id), ("name", .str f.name),
                      ("status", .str f.status)])))]),
               [.filesList (getArg m "collection_id")])
           | .error e => (.error e, [.filesList (getArg m "collection_id")]))
        else (.error (.valueError "Missing required parameter: \x27collection_id\x27"), []))
  else if name = "add_file" then
    (match arguments with
     | .notDict => (.error (.valueError "Missing required parameters"), [])
     | .dict m =>
        if hasKey m "collection_id" ∧ hasKey m "name" ∧ hasKey m "url" then
          if validate_collection_id (getArg m "collection_id") then
            if validate_url parse (getArg m "url") then
              (match liftFault (client.files_add (getArg m "collection_id")
                       [⟨getArg m "name", getArg m "url"⟩]) with
               | .ok [] =>
                  (.error (.indexError "list index out of range"),
                   [.filesAdd (getArg m "collection_id") [⟨getArg m "name", getArg m "url"⟩]])
               | .ok (f :: _) =>
                  (.ok (.obj [("file_id", .str f.id)]),
                   [.filesAdd (getArg m "collection_id") [⟨getArg m "name", getArg m "url"⟩]])
               | .error e =>
                  (.error e,
                   [.filesAdd (getArg m "collection_id") [⟨getArg m "name", getArg m "url"⟩]]))
            else (.error (.valueError "Invalid URL format"), [])
          else (.error (.valueError "Invalid collection ID format"), [])
        else (.error (.valueError "Missing required parameters"), []))
  else if name = "search" then
    (match arguments with
     | .notDict => (.error (.valueError "Missing required parameters"), [])
     | .dict m =>
        if hasKey m "collection_id" ∧ hasKey m "query" then
          (match liftFault (client.collections_search (getArg m "collection_id")
                   (getArg m "query")) with
           | .ok rs =>
              (.ok (.arr (rs.map (fun r =>
                .obj [("content", .str r.content), ("score", .num r.score)]))),
               [.collectionsSearch (getArg m "collection_id") (getArg m "query")])
           | .error e =>
              (.error e,
               [.collectionsSearch (getArg m "collection_id") (getArg m "query")]))
        else (.error (.valueError "Missing required parameters"), []))
  else
    (.error (.valueError ("Unknown tool: " ++ name)), [])

/-- One element of the sequence `call_tool` returns: a content item with
type text carrying the serialized result, or with type error carrying an
error message. -/
inductive TextContent where
  | text : JVal → TextContent
  | error : String → TextContent

/-- The message of the error content produced by the two except clauses of
`call_tool`: `NeedleError` is caught first and prefixed with the Needle API
error marker; every other exception is caught by the generic clause. -/
def wrapMessage (name : String) : Exc → String
  | .needle m => "Needle API error: " ++ m
  | e => "Error executing " ++ name ++ ": " ++ e.message

/-- The except clauses of `call_tool` (server.py lines 268-275): an ok result
becomes a single type-text content, any exception becomes a single type-error
content. -/
def wrapResult (name : String) : Except Exc JVal → List TextContent
  | .ok r => [.text r]
  | .error e => [.error (wrapMessage name e)]

/-- The whole of `call_tool`: the try block followed by the except clauses,
returning the content sequence handed back to the transport layer together
with the record of remote calls made. (In the source `call_tool` is
additionally wrapped by the `rate_limit` decorator, modelled separately
below; the wrapper delays the call and never alters its result.) -/
def call_tool (client : Client) (parse : String → Except String SplitResult)
    (name : String) (arguments : Arguments) : List TextContent × List RemoteCall :=
  let br := call_tool_body client parse name arguments
  (wrapResult name br.1, br.2)

/-- The failure kinds of the result-envelope contract. -/
inductive FailureKind where
  | validationError : FailureKind
  | remoteApiError : FailureKind
  | unexpectedError : FailureKind
deriving DecidableEq

/-- The uniform result envelope of the specification: a Success payload or a
Failure with a kind and a message. -/
inductive ResultEnvelope where
  | success : JVal → ResultEnvelope
  | failure : FailureKind → String → ResultEnvelope

/-- Abstraction of a dispatch outcome into the result envelope, following the
error taxonomy of the specification: the `ValueError`s raised by the
validation code (including the unknown-tool case) are ValidationError; a
`NeedleError` from the remote collaborator is RemoteApiError; any other
exception (`IndexError`, unexpected client faults) is UnexpectedError. -/
def toEnvelope : Except Exc JVal → ResultEnvelope
  | .ok r => .success r
  | .error (.valueError m) => .failure .validationError m
  | .error (.needle m) => .failure .remoteApiError m
  | .error (.indexError m) => .failure .unexpectedError m
  | .error (.otherError m) => .failure .unexpectedError m

/-- The required-key lists declared for the seven tools in `list_tools`
(server.py lines 85-194). -/
def requiredKeys : String → List String
  | "list_collections" => []
  | "create_collection" => ["name"]
  | "get_collection_details" => ["collection_id"]
  | "get_collection_stats" => ["collection_id"]
  | "list_collection_files" => ["collection_id"]
  | "add_file" => ["collection_id", "name", "url"]
  | "search" => ["collection_id", "query"]
  | _ => []

/-- The enumerated set of the seven tool names declared in `list_tools`. -/
def toolNames : List String :=
  ["list_collections", "create_collection", "get_collection_details",
   "get_collection_stats", "list_collection_files", "add_file", "search"]

/-- The mutable state closed over by the `rate_limit` decorator (server.py
lines 44-71): the timestamp of the last window reset and the number of calls
counted since. Time is modelled by rationals. -/
structure RLState where
  last_reset : ℚ
  calls_made : ℕ
deriving DecidableEq

/-- One pass through the `rate_limit` wrapper for an attempt arriving at time
`now`: reset the counter if more than `period` has elapsed since `last_reset`;
if the counter has reached `calls`, compute the remaining wait and, when it is
positive, sleep for it (modelled as an exact suspension), then reset the state;
finally increment the counter. Returns the new state and the time at which the
wrapped operation begins. -/
def rate_limit_step (calls : ℕ) (period : ℚ) (s : RLState) (now : ℚ) : RLState × ℚ :=
  let s1 := if period < now - s.last_reset then ⟨now, 0⟩ else s
  if calls ≤ s1.calls_made then
    if 0 < period - (now - s1.last_reset) then
      (⟨now + (period - (now - s1.last_reset)), 0 + 1⟩,
       now + (period - (now - s1.last_reset)))
    else (⟨s1.last_reset, s1.calls_made + 1⟩, now)
  else (⟨s1.last_reset, s1.calls_made + 1⟩, now)

/-- Run the rate limiter over a list of attempt times processed in order.
For each attempt the output records the window-start timestamp in force when
the wrapped operation begins, and the begin time itself. -/
def rate_limit_run (calls : ℕ) (period : ℚ) : RLState → List ℚ → List (ℚ × ℚ)
  | _, [] => []
  | s, now :: rest =>
      let sb := rate_limit_step calls period s now
      (sb.1.last_reset, sb.2) :: rate_limit_run calls period sb.1 rest

/-- How many recorded operations began under window start `w`, strictly less
than `period` after it. -/
def windowCount (period : ℚ) (w : ℚ) (tr : List (ℚ × ℚ)) : ℕ :=
  tr.countP (fun p => decide (p.1 = w ∧ p.2 - p.1 < period))

/-- A fake remote collaborator with fixed successful responses, used to
instantiate the dispatcher theorems on concrete invocations. -/
def fakeClient : Client :=
  ⟨.ok [⟨"col1", "demo", "2024-01-01 00:00:00"⟩],
   fun _ => .ok ⟨"col2", "fresh", "2024-01-02 00:00:00"⟩,
   fun _ => .ok ⟨"col1", "demo", "2024-01-01 00:00:00"⟩,
   fun _ => .ok (.obj [("chunks", .num 3)]),
   fun _ => .ok [⟨"f1", "a.pdf", "indexed"⟩, ⟨"f2", "b.pdf", "pending"⟩],
   fun _ _ => .ok [⟨"f9", "c.pdf", "pending"⟩],
   fun _ _ => .ok [⟨"hello", 9 / 10⟩]⟩

/-- A fake remote collaborator whose add operation raises a `NeedleError`. -/
def faultyAddClient : Client :=
  ⟨fakeClient.collections_list, fakeClient.collections_create,
   fakeClient.collections_get, fakeClient.collections_stats,
   fakeClient.files_list,
   fun _ _ => .error (.needleError "boom"),
   fakeClient.collections_search⟩

/-- A fake remote collaborator whose add operation returns an empty sequence. -/
def emptyAddClient : Client :=
  ⟨fakeClient.collections_list, fakeClient.collections_create,
   fakeClient.collections_get, fakeClient.collections_stats,
   fakeClient.files_list,
   fun _ _ => .ok [],
   fakeClient.collections_search⟩

/-- C9: the URL validator is total: for every parser behaviour and every
string input it returns a boolean, true exactly when the parse succeeds with
both a non-empty scheme and a non-empty netloc; a parser failure (the raising
case caught by the bare except) yields false, never a propagated exception —
totality itself is structural: `validate_url` is a function into `Bool`. -/
theorem validate_url_total_iff (parse : String → Except String SplitResult)
    (url : String) :
    validate_url parse url = true ↔
      ∃ r, parse url = .ok r ∧ r.scheme ≠ "" ∧ r.netloc ≠ "" := by
  unfold validate_url
  cases h : parse url with
  | ok r => simp
  | error e => simp

/-- C6: an invocation with a tool name outside the enumerated set of seven
returns a ValidationError failure whose message contains the tool name, and
no remote call occurs. -/
theorem unknown_tool_rejected (client : Client)
    (parse : String → Except String SplitResult) (name : String) (args : Arguments)
    (h : name ∉ toolNames) :
    (call_tool_body client parse name args).1
        = .error (.valueError ("Unknown tool: " ++ name)) ∧
    (call_tool_body client parse name args).2 = [] ∧
    toEnvelope (call_tool_body client parse name args).1
        = .failure .validationError ("Unknown tool: " ++ name) ∧
    ∃ pre, "Unknown tool: " ++ name = pre ++ name := by
  simp only [toolNames, List.mem_cons, List.not_mem_nil, or_false, not_or] at h
  obtain ⟨h1, h2, h3, h4, h5, h6, h7⟩ := h
  refine ⟨?_, ?_, ?_, ⟨"Unknown tool: ", rfl⟩⟩ <;>
    simp [call_tool_body, h1, h2, h3, h4, h5, h6, h7, toEnvelope]

/-- Witness for C6 at the concrete invocation of the spec example. -/
theorem unknown_tool_rejected_witness :
    ("unknown_tool" ∉ toolNames) ∧
    (call_tool_body fakeClient urlsplitModel "unknown_tool" (.dict [])).1
        = .error (.valueError ("Unknown tool: " ++ "unknown_tool")) ∧
    (call_tool_body fakeClient urlsplitModel "unknown_tool" (.dict [])).2 = [] := by
  have h : ("unknown_tool" : String) ∉ toolNames := by decide
  have h2 := unknown_tool_rejected fakeClient urlsplitModel "unknown_tool" (.dict []) h
  exact ⟨h, h2.1, h2.2.1⟩

/-- C7: a `list_collection_files` invocation with `collection_id` present,
against a collaborator returning the file sequence `fs`, succeeds with payload
an object whose single field `files` maps to the sequence of per-file objects
with fields `id`, `name` and `status`, one per returned file in order, and the
remote list operation is called once with that collection id. -/
theorem list_collection_files_payload (client : Client)
    (parse : String → Except String SplitResult) (m : List (String × String))
    (cid : String) (fs : List NFile)
    (hcid : m.lookup "collection_id" = some cid)
    (hfs : client.files_list cid = .ok fs) :
    (call_tool_body client parse "list_collection_files" (.dict m)).1 =
      .ok (.obj [("files", .arr (fs.map (fun f =>
        .obj [("id", .str f.id), ("name", .str f.name),
              ("status", .str f.status)])))]) ∧
    (call_tool_body client parse "list_collection_files" (.dict m)).2
        = [.filesList cid] := by
  constructor <;>
    simp [call_tool_body, hasKey, getArg, hcid, hfs, liftFault]

/-- Witness for C7 on a two-file collaborator, checking order preservation. -/
theorem list_collection_files_payload_witness :
    ([("collection_id", "col1")].lookup "collection_id" = some "col1") ∧
    (fakeClient.files_list "col1"
        = .ok [⟨"f1", "a.pdf", "indexed"⟩, ⟨"f2", "b.pdf", "pending"⟩]) ∧
    (call_tool_body fakeClient urlsplitModel "list_collection_files"
        (.dict [("collection_id", "col1")])).1 =
      .ok (.obj [("files", .arr
        [.obj [("id", .str "f1"), ("name", .str "a.pdf"), ("status", .str "indexed")],
         .obj [("id", .str "f2"), ("name", .str "b.pdf"), ("status", .str "pending")]])]) := by
  refine ⟨rfl, rfl, ?_⟩
  have h := list_collection_files_payload fakeClient urlsplitModel
    [("collection_id", "col1")] "col1"
    [⟨"f1", "a.pdf", "indexed"⟩, ⟨"f2", "b.pdf", "pending"⟩] rfl rfl
  exact h.1

/-- C10: besides `add_file`, none of the collection-id-taking tools validates
argument values: once the required keys are present the values are forwarded
verbatim to the remote collaborator, whatever they are (in particular an empty
collection id is passed through, not rejected). -/
theorem values_forwarded_verbatim (client : Client)
    (parse : String → Except String SplitResult) (m : List (String × String))
    (cid q : String)
    (hcid : m.lookup "collection_id" = some cid)
    (hq : m.lookup "query" = some q) :
    (call_tool_body client parse "get_collection_details" (.dict m)).2
        = [.collectionsGet cid] ∧
    (call_tool_body client parse "get_collection_stats" (.dict m)).2
        = [.collectionsStats cid] ∧
    (call_tool_body client parse "list_collection_files" (.dict m)).2
        = [.filesList cid] ∧
    (call_tool_body client parse "search" (.dict m)).2
        = [.collectionsSearch cid q] := by
  refine ⟨?_, ?_, ?_, ?_⟩
  · cases hr : client.collections_get cid with
    | ok c => simp [call_tool_body, hasKey, getArg, hcid, hr, liftFault]
    | error f =>
        cases f <;> simp [call_tool_body, hasKey, getArg, hcid, hr, liftFault]
  · cases hr : client.collections_stats cid with
    | ok c => simp [call_tool_body, hasKey, getArg, hcid, hr, liftFault]
    | error f =>
        cases f <;> simp [call_tool_body, hasKey, getArg, hcid, hr, liftFault]
  · cases hr : client.files_list cid with
    | ok c => simp [call_tool_body, hasKey, getArg, hcid, hr, liftFault]
    | error f =>
        cases f <;> simp [call_tool_body, hasKey, getArg, hcid, hr, liftFault]
  · cases hr : client.collections_search cid q with
    | ok c => simp [call_tool_body, hasKey, getArg, hcid, hq, hr, liftFault]
    | error f =>
        cases f <;> simp [call_tool_body, hasKey, getArg, hcid, hq, hr, liftFault]

/-- Witness for C10 at the empty-string collection id: the empty id reaches
the remote collaborator instead of being rejected. -/
theorem values_forwarded_verbatim_witness :
    ([("collection_id", ""), ("query", "foo")].lookup "collection_id" = some "") ∧
    ([("collection_id", ""), ("query", "foo")].lookup "query" = some "foo") ∧
    (call_tool_body fakeClient urlsplitModel "get_collection_details"
        (.dict [("collection_id", ""), ("query", "foo")])).2 = [.collectionsGet ""] ∧
    (call_tool_body fakeClient urlsplitModel "search"
        (.dict [("collection_id", ""), ("query", "foo")])).2
        = [.collectionsSearch "" "foo"] := by
  have h := values_forwarded_verbatim fakeClient urlsplitModel
    [("collection_id", ""), ("query", "foo")] "" "foo" rfl rfl
  exact ⟨rfl, rfl, h.1, h.2.2.2⟩

/-- C4: a valid `add_file` invocation during which the remote add operation
raises a `NeedleError` with message `msg` yields the RemoteApiError failure
whose message equals `msg` (serialized by `call_tool` as a single type-error
content prefixed by the Needle API error marker), never an unhandled
exception. -/
theorem add_file_remote_fault (client : Client)
    (parse : String → Except String SplitResult) (m : List (String × String))
    (cid nm url msg : String)
    (hcid : m.lookup "collection_id" = some cid)
    (hnm : m.lookup "name" = some nm)
    (hurl : m.lookup "url" = some url)
    (hv1 : validate_collection_id cid = true)
    (hv2 : validate_url parse url = true)
    (hfault : client.files_add cid [⟨nm, url⟩] = .error (.needleError msg)) :
    toEnvelope (call_tool_body client parse "add_file" (.dict m)).1
        = .failure .remoteApiError msg ∧
    (call_tool client parse "add_file" (.dict m)).1
        = [.error ("Needle API error: " ++ msg)] := by
  constructor <;>
    simp [call_tool, call_tool_body, hasKey, getArg, hcid, hnm, hurl, hv1, hv2,
          hfault, liftFault, toEnvelope, wrapResult, wrapMessage]

/-- Witness for C4 on a collaborator raising a `NeedleError` with
message boom. -/
theorem add_file_remote_fault_witness :
    ([("collection_id", "col1"), ("name", "doc"),
      ("url", "https://example.com/doc.pdf")].lookup "collection_id" = some "col1") ∧
    (validate_collection_id "col1" = true) ∧
    (validate_url urlsplitModel "https://example.com/doc.pdf" = true) ∧
    (faultyAddClient.files_add "col1" [⟨"doc", "https://example.com/doc.pdf"⟩]
        = .error (.needleError "boom")) ∧
    toEnvelope (call_tool_body faultyAddClient urlsplitModel "add_file"
        (.dict [("collection_id", "col1"), ("name", "doc"),
                ("url", "https://example.com/doc.pdf")])).1
        = .failure .remoteApiError "boom" := by
  have h := add_file_remote_fault faultyAddClient urlsplitModel
    [("collection_id", "col1"), ("name", "doc"), ("url", "https://example.com/doc.pdf")]
    "col1" "doc" "https://example.com/doc.pdf" "boom" rfl rfl rfl (by decide) (by decide) rfl
  exact ⟨rfl, by decide, by decide, rfl, h.1⟩

/-- C8: a valid `add_file` invocation succeeds with payload an object whose
single field `file_id` holds the id of the first created file when the remote
add operation returns a non-empty sequence, and ends in an UnexpectedError
failure (the caught IndexError of `files[0]`) when it returns an empty
sequence — not a success and not an unhandled fault. -/
theorem add_file_first_id_or_unexpected (client : Client)
    (parse : String → Except String SplitResult) (m : List (String × String))
    (cid nm url : String)
    (hcid : m.lookup "collection_id" = some cid)
    (hnm : m.lookup "name" = some nm)
    (hurl : m.lookup "url" = some url)
    (hv1 : validate_collection_id cid = true)
    (hv2 : validate_url parse url = true) :
    (∀ f rest, client.files_add cid [⟨nm, url⟩] = .ok (f :: rest) →
        (call_tool_body client parse "add_file" (.dict m)).1
          = .ok (.obj [("file_id", .str f.id)])) ∧
    (client.files_add cid [⟨nm, url⟩] = .ok [] →
        toEnvelope (call_tool_body client parse "add_file" (.dict m)).1
          = .failure .unexpectedError "list index out of range") := by
  constructor
  · intro f rest hadd
    simp [call_tool_body, hasKey, getArg, hcid, hnm, hurl, hv1, hv2, hadd, liftFault]
  · intro hadd
    simp [call_tool_body, hasKey, getArg, hcid, hnm, hurl, hv1, hv2, hadd, liftFault,
          toEnvelope]

/-- Witness for C8 on both remote behaviours: a one-file result and an empty
result. -/
theorem add_file_first_id_or_unexpected_witness :
    (validate_collection_id "col1" = true) ∧
    (validate_url urlsplitModel "https://example.com/doc.pdf" = true) ∧
    (fakeClient.files_add "col1" [⟨"doc", "https://example.com/doc.pdf"⟩]
        = .ok [⟨"f9", "c.pdf", "pending"⟩]) ∧
    (call_tool_body fakeClient urlsplitModel "add_file"
        (.dict [("collection_id", "col1"), ("name", "doc"),
                ("url", "https://example.com/doc.pdf")])).1
        = .ok (.obj [("file_id", .str "f9")]) ∧
    (emptyAddClient.files_add "col1" [⟨"doc", "https://example.com/doc.pdf"⟩]
        = .ok []) ∧
    toEnvelope (call_tool_body emptyAddClient urlsplitModel "add_file"
        (.dict [("collection_id", "col1"), ("name", "doc"),
                ("url", "https://example.com/doc.pdf")])).1
        = .failure .unexpectedError "list index out of range" := by
  have h1 := add_file_first_id_or_unexpected fakeClient urlsplitModel
    [("collection_id", "col1"), ("name", "doc"), ("url", "https://example.com/doc.pdf")]
    "col1" "doc" "https://example.com/doc.pdf" rfl rfl rfl (by decide) (by decide)
  have h2 := add_file_first_id_or_unexpected emptyAddClient urlsplitModel
    [("collection_id", "col1"), ("name", "doc"), ("url", "https://example.com/doc.pdf")]
    "col1" "doc" "https://example.com/doc.pdf" rfl rfl rfl (by decide) (by decide)
  exact ⟨by decide, by decide, rfl,
         h1.1 ⟨"f9", "c.pdf", "pending"⟩ [] rfl, rfl, h2.2 rfl⟩

/-- C5: for an `add_file` invocation with all three keys present, a url the
validator rejects yields a ValidationError failure with no remote call
(whatever the collection id); a url the validator accepts together with a
non-empty collection id makes the remote add operation run exactly once with
exactly the supplied collection id, name and url. -/
theorem add_file_url_gate (client : Client)
    (parse : String → Except String SplitResult) (m : List (String × String))
    (cid nm url : String)
    (hcid : m.lookup "collection_id" = some cid)
    (hnm : m.lookup "name" = some nm)
    (hurl : m.lookup "url" = some url) :
    (validate_url parse url = false →
      (∃ msg, toEnvelope (call_tool_body client parse "add_file" (.dict m)).1
          = .failure .validationError msg) ∧
      (call_tool_body client parse "add_file" (.dict m)).2 = []) ∧
    (validate_url parse url = true → cid ≠ "" →
      (call_tool_body client parse "add_file" (.dict m)).2
        = [.filesAdd cid [⟨nm, url⟩]]) := by
  constructor
  · intro hbad
    by_cases hc : validate_collection_id cid = true
    · refine ⟨⟨"Invalid URL format", ?_⟩, ?_⟩ <;>
        simp [call_tool_body, hasKey, getArg, hcid, hnm, hurl, hc, hbad, toEnvelope]
    · rw [Bool.not_eq_true] at hc
      refine ⟨⟨"Invalid collection ID format", ?_⟩, ?_⟩ <;>
        simp [call_tool_body, hasKey, getArg, hcid, hnm, hurl, hc, toEnvelope]
  · intro hok hne
    have hc : validate_collection_id cid = true := by
      simp [validate_collection_id, hne]
    cases hadd : client.files_add cid [⟨nm, url⟩] with
    | ok fs =>
        cases fs <;>
          simp [call_tool_body, hasKey, getArg, hcid, hnm, hurl, hc, hok, hadd, liftFault]
    | error f =>
        cases f <;>
          simp [call_tool_body, hasKey, getArg, hcid, hnm, hurl, hc, hok, hadd, liftFault]

/-- Witness for C5 on the two urls of the spec example: the malformed one is
rejected with no remote call, the well-formed one reaches the collaborator
exactly once with the exact values. -/
theorem add_file_url_gate_witness :
    (validate_url urlsplitModel "not-a-url" = false) ∧
    (call_tool_body fakeClient urlsplitModel "add_file"
        (.dict [("collection_id", "col1"), ("name", "doc"),
                ("url", "not-a-url")])).2 = [] ∧
    (validate_url urlsplitModel "https://example.com/doc.pdf" = true) ∧
    (call_tool_body fakeClient urlsplitModel "add_file"
        (.dict [("collection_id", "col1"), ("name", "doc"),
                ("url", "https://example.com/doc.pdf")])).2
        = [.filesAdd "col1" [⟨"doc", "https://example.com/doc.pdf"⟩]] := by
  have h1 := add_file_url_gate fakeClient urlsplitModel
    [("collection_id", "col1"), ("name", "doc"), ("url", "not-a-url")]
    "col1" "doc" "not-a-url" rfl rfl rfl
  have h2 := add_file_url_gate fakeClient urlsplitModel
    [("collection_id", "col1"), ("name", "doc"), ("url", "https://example.com/doc.pdf")]
    "col1" "doc" "https://example.com/doc.pdf" rfl rfl rfl
  exact ⟨by decide, (h1.1 (by decide)).2, by decide,
         h2.2 (by decide) (by decide)⟩

/-- C3: for every tool and every argument mapping missing one of the
tool's declared required keys, the dispatcher produces a ValidationError
failure and makes no remote call. -/
theorem missing_required_key_rejected (client : Client)
    (parse : String → Except String SplitResult) (name : String)
    (m : List (String × String))
    (hname : name ∈ toolNames) (k : String) (hk : k ∈ requiredKeys name)
    (hmiss : m.lookup k = none) :
    (∃ msg, toEnvelope (call_tool_body client parse name (.dict m)).1
        = .failure .validationError msg) ∧
    (call_tool_body client parse name (.dict m)).2 = [] := by
  simp only [toolNames, List.mem_cons, List.not_mem_nil, or_false] at hname
  rcases hname with h | h | h | h | h | h | h <;> subst h
  · simp [requiredKeys] at hk
  · simp only [requiredKeys, List.mem_singleton] at hk
    subst hk
    exact ⟨⟨"Missing required parameter: \x27name\x27",
             by simp [call_tool_body, hasKey, hmiss, toEnvelope]⟩,
           by simp [call_tool_body, hasKey, hmiss]⟩
  · simp only [requiredKeys, List.mem_singleton] at hk
    subst hk
    exact ⟨⟨"Missing required parameter: \x27collection_id\x27",
             by simp [call_tool_body, hasKey, hmiss, toEnvelope]⟩,
           by simp [call_tool_body, hasKey, hmiss]⟩
  · simp only [requiredKeys, List.mem_singleton] at hk
    subst hk
    exact ⟨⟨"Missing required parameter: \x27collection_id\x27",
             by simp [call_tool_body, hasKey, hmiss, toEnvelope]⟩,
           by simp [call_tool_body, hasKey, hmiss]⟩
  · simp only [requiredKeys, List.mem_singleton] at hk
    subst hk
    exact ⟨⟨"Missing required parameter: \x27collection_id\x27",
             by simp [call_tool_body, hasKey, hmiss, toEnvelope]⟩,
           by simp [call_tool_body, hasKey, hmiss]⟩
  · simp only [requiredKeys, List.mem_cons, List.not_mem_nil, or_false] at hk
    rcases hk with hk | hk | hk <;> subst hk <;>
      exact ⟨⟨"Missing required parameters",
               by simp [call_tool_body, hasKey, hmiss, toEnvelope]⟩,
             by simp [call_tool_body, hasKey, hmiss]⟩
  · simp only [requiredKeys, List.mem_cons, List.not_mem_nil, or_false] at hk
    rcases hk with hk | hk <;> subst hk <;>
      exact ⟨⟨"Missing required parameters",
               by simp [call_tool_body, hasKey, hmiss, toEnvelope]⟩,
             by simp [call_tool_body, hasKey, hmiss]⟩

/-- Witness for C3: `create_collection` invoked with an empty mapping. -/
theorem missing_required_key_rejected_witness :
    ("create_collection" ∈ toolNames) ∧ ("name" ∈ requiredKeys "create_collection") ∧
    (([] : List (String × String)).lookup "name" = none) ∧
    (∃ msg, toEnvelope (call_tool_body fakeClient urlsplitModel "create_collection"
        (.dict [])).1 = .failure .validationError msg) ∧
    (call_tool_body fakeClient urlsplitModel "create_collection" (.dict [])).2 = [] := by
  have h := missing_required_key_rejected fakeClient urlsplitModel "create_collection"
    [] (by decide) "name" (by decide) rfl
  exact ⟨by decide, by decide, rfl, h.1, h.2⟩

/-- C1: every invocation of `call_tool`, for any tool name, any argument
payload, any parser and any remote behaviour, completes with exactly one
content item, and that item is either a type-text content carrying a Success
payload or a type-error content corresponding to a Failure envelope; every
exception of the body is absorbed by the except clauses, none escapes. -/
theorem call_tool_always_envelope (client : Client)
    (parse : String → Except String SplitResult) (name : String) (args : Arguments) :
    ∃ tc : TextContent, (call_tool client parse name args).1 = [tc] ∧
      ((∃ r, tc = TextContent.text r ∧
          toEnvelope (call_tool_body client parse name args).1 = .success r) ∨
       (∃ e, tc = TextContent.error (wrapMessage name e) ∧
          ∃ kind, toEnvelope (call_tool_body client parse name args).1
            = .failure kind e.message)) := by
  cases hb : (call_tool_body client parse name args).1 with
  | ok r =>
      exact ⟨.text r, by simp [call_tool, hb, wrapResult],
             Or.inl ⟨r, rfl, by simp [toEnvelope, hb]⟩⟩
  | error e =>
      refine ⟨.error (wrapMessage name e), by simp [call_tool, hb, wrapResult],
              Or.inr ⟨e, rfl, ?_⟩⟩
      cases e <;> simp [toEnvelope, hb, Exc.message]

/-- Unfolding of one limiter pass inside a run. -/
theorem rate_limit_run_cons (calls : ℕ) (period : ℚ) (s : RLState) (now : ℚ)
    (rest : List ℚ) :
    rate_limit_run calls period s (now :: rest) =
      ((rate_limit_step calls period s now).1.last_reset,
       (rate_limit_step calls period s now).2)
        :: rate_limit_run calls period (rate_limit_step calls period s now).1 rest := rfl

/-- Window counting over a cons cell. -/
theorem windowCount_cons (period w x y : ℚ) (tr : List (ℚ × ℚ)) :
    windowCount period w ((x, y) :: tr) =
      windowCount period w tr + (if x = w ∧ y - x < period then 1 else 0) := by
  simp [windowCount, List.countP_cons]

/-- Branch lemma: once more than `period` has elapsed since the window start,
the counter resets and the call proceeds immediately under the new window. -/
theorem rate_limit_step_reset (calls : ℕ) (period : ℚ) (hc : 1 ≤ calls)
    (s : RLState) (now : ℚ) (h : period < now - s.last_reset) :
    rate_limit_step calls period s now = (⟨now, 1⟩, now) := by
  have hne : ¬ calls ≤ (0 : ℕ) := by omega
  simp [rate_limit_step, h, hne]

/-- Branch lemma: inside the window with the counter full and wait time
remaining, the call sleeps to the end of the window and proceeds from a
fresh window starting at the wake time. -/
theorem rate_limit_step_sleep (calls : ℕ) (period : ℚ)
    (s : RLState) (now : ℚ) (h : ¬ period < now - s.last_reset)
    (hfull : calls ≤ s.calls_made) (hwait : 0 < period - (now - s.last_reset)) :
    rate_limit_step calls period s now =
      (⟨now + (period - (now - s.last_reset)), 1⟩,
       now + (period - (now - s.last_reset))) := by
  simp [rate_limit_step, h, hfull, hwait]

/-- Branch lemma: counter full but the computed wait is not positive (the
window expired exactly at the boundary): proceed without suspension,
incrementing the counter past the limit. -/
theorem rate_limit_step_boundary (calls : ℕ) (period : ℚ)
    (s : RLState) (now : ℚ) (h : ¬ period < now - s.last_reset)
    (hfull : calls ≤ s.calls_made) (hwait : ¬ 0 < period - (now - s.last_reset)) :
    rate_limit_step calls period s now = (⟨s.last_reset, s.calls_made + 1⟩, now) := by
  simp [rate_limit_step, h, hfull, hwait]

/-- Branch lemma: inside the window with budget remaining, count and go. -/
theorem rate_limit_step_incr (calls : ℕ) (period : ℚ)
    (s : RLState) (now : ℚ) (h : ¬ period < now - s.last_reset)
    (hroom : ¬ calls ≤ s.calls_made) :
    rate_limit_step calls period s now = (⟨s.last_reset, s.calls_made + 1⟩, now) := by
  simp [rate_limit_step, h, hroom]

/-- Invariant of the limiter run: the number of operations beginning less
than `period` after window start `w` is bounded by the remaining budget of
the current window when `w` is the current window start, by `calls` for
window starts not yet reached, and by zero for window starts already left
behind. -/
theorem windowCount_run_le (calls : ℕ) (period : ℚ) (hc : 1 ≤ calls)
    (hp : 0 < period) (ts : List ℚ) :
    ∀ (s : RLState) (w : ℚ),
      windowCount period w (rate_limit_run calls period s ts) ≤
        (if w = s.last_reset then calls - s.calls_made
         else if s.last_reset < w then calls else 0) := by
  induction ts with
  | nil =>
      intro s w
      simp only [rate_limit_run, windowCount, List.countP_nil]
      split_ifs <;> omega
  | cons now rest ih =>
      intro s w
      rw [rate_limit_run_cons]
      by_cases hreset : period < now - s.last_reset
      · rw [rate_limit_step_reset calls period hc s now hreset]
        dsimp only
        rw [windowCount_cons]
        have hlt : s.last_reset < now := by linarith
        have htail := ih ⟨now, 1⟩ w
        dsimp only at htail
        rcases lt_trichotomy w now with h1 | h1 | h1
        · rw [if_neg (fun hcon => (ne_of_gt h1) hcon.1)]
          rw [if_neg (ne_of_lt h1), if_neg (lt_asymm h1)] at htail
          split_ifs <;> omega
        · subst h1
          rw [if_pos ⟨rfl, by linarith⟩]
          rw [if_pos rfl] at htail
          rw [if_neg (ne_of_gt hlt), if_pos hlt]
          omega
        · have hne2 : ¬ w = s.last_reset := by
            intro h2
            rw [h2] at h1
            exact absurd (hlt.trans h1) (lt_irrefl _)
          rw [if_neg (fun hcon => (ne_of_lt h1) hcon.1)]
          rw [if_neg (ne_of_gt h1), if_pos h1] at htail
          rw [if_neg hne2, if_pos (hlt.trans h1)]
          omega
      · by_cases hfull : calls ≤ s.calls_made
        · by_cases hwait : 0 < period - (now - s.last_reset)
          · rw [rate_limit_step_sleep calls period s now hreset hfull hwait]
            dsimp only
            rw [windowCount_cons]
            have hlt : s.last_reset < now + (period - (now - s.last_reset)) := by
              linarith
            have htail := ih ⟨now + (period - (now - s.last_reset)), 1⟩ w
            dsimp only at htail
            rcases lt_trichotomy w (now + (period - (now - s.last_reset)))
              with h1 | h1 | h1
            · rw [if_neg (fun hcon => (ne_of_gt h1) hcon.1)]
              rw [if_neg (ne_of_lt h1), if_neg (lt_asymm h1)] at htail
              split_ifs <;> omega
            · subst h1
              rw [if_pos ⟨rfl, by linarith⟩]
              rw [if_pos rfl] at htail
              rw [if_neg (ne_of_gt hlt), if_pos hlt]
              omega
            · have hne2 : ¬ w = s.last_reset := by
                intro h2
                rw [h2] at h1
                exact absurd (hlt.trans h1) (lt_irrefl _)
              rw [if_neg (fun hcon => (ne_of_lt h1) hcon.1)]
              rw [if_neg (ne_of_gt h1), if_pos h1] at htail
              rw [if_neg hne2, if_pos (hlt.trans h1)]
              omega
          · rw [rate_limit_step_boundary calls period s now hreset hfull hwait]
            dsimp only
            rw [windowCount_cons]
            have hbig : period ≤ now - s.last_reset := by linarith
            have htail := ih ⟨s.last_reset, s.calls_made + 1⟩ w
            dsimp only at htail
            rw [if_neg (fun hcon => absurd hcon.2 (not_lt.mpr hbig))]
            split_ifs at htail ⊢ <;> omega
        · rw [rate_limit_step_incr calls period s now hreset hfull]
          dsimp only
          rw [windowCount_cons]
          have htail := ih ⟨s.last_reset, s.calls_made + 1⟩ w
          dsimp only at htail
          by_cases hw : w = s.last_reset
          · subst hw
            simp only [eq_self_iff_true, if_true, true_and] at htail ⊢
            split_ifs <;> omega
          · rw [if_neg hw]
            rw [if_neg hw] at htail
            rw [if_neg (fun hcon => hw hcon.1.symm)]
            split_ifs at htail ⊢ <;> omega

/-- Every attempt produces exactly one begun operation: the limiter delays,
it never drops or rejects an attempt. -/
theorem rate_limit_run_length (calls : ℕ) (period : ℚ) (ts : List ℚ) :
    ∀ s : RLState, (rate_limit_run calls period s ts).length = ts.length := by
  induction ts with
  | nil => intro s; rfl
  | cons now rest ih => intro s; simp [rate_limit_run_cons, ih]

/-- C2 (amended): from the initial decorator state every attempt completes
(delayed, never rejected), and at most `calls` wrapped operations begin less
than `period` after any one value of the limiter's window-start timestamp:
the bound holds per reset window, not per sliding interval. -/
theorem rate_limit_reset_window_bound (calls : ℕ) (period : ℚ) (hc : 1 ≤ calls)
    (hp : 0 < period) (t0 : ℚ) (ts : List ℚ) :
    (rate_limit_run calls period ⟨t0, 0⟩ ts).length = ts.length ∧
    ∀ w, windowCount period w (rate_limit_run calls period ⟨t0, 0⟩ ts) ≤ calls := by
  refine ⟨rate_limit_run_length calls period ts ⟨t0, 0⟩, fun w => ?_⟩
  have h := windowCount_run_le calls period hc hp ts ⟨t0, 0⟩ w
  split_ifs at h <;> omega

/-- Witness for the amended C2 theorem at a concrete configuration. -/
theorem rate_limit_reset_window_bound_witness :
    (1 ≤ 10) ∧ ((0 : ℚ) < 1) ∧
    windowCount 1 0 (rate_limit_run 10 1 ⟨0, 0⟩ [0]) ≤ 10 := by
  exact ⟨by norm_num, by norm_num,
    (rate_limit_reset_window_bound 10 1 (by norm_num) (by norm_num) 0 [0]).2 0⟩

/-- C2 counterexample: with ten calls allowed per period of one, twenty
wrapped operations begin inside the single closed period-length interval
from nine tenths to nineteen tenths: ten attempts at nine tenths fill the
first window, and ten attempts at twenty-one twentieths arrive just after
the reset threshold, reset the counter, and all begin at once. The
sliding-interval reading of the bound is therefore false of the code, which
maintains a resetting window, not a sliding one. -/
theorem rate_limit_sliding_window_cex :
    ((rate_limit_run 10 1 ⟨0, 0⟩
        (List.replicate 10 (9 / 10) ++ List.replicate 10 (21 / 20))).map
          Prod.snd).countP
      (fun t => decide ((9 / 10 : ℚ) ≤ t ∧ t ≤ 9 / 10 + 1)) = 20 := by
  norm_num [rate_limit_run, rate_limit_step, List.replicate, List.countP_cons,
    decide_eq_true_eq]

end NeedleMCP
